import Mathlib

/-!
Verification development for the xAIchat repository.

The Python modules `search.py`, `mcp.py` and `ai.py` are shallowly embedded
below.  Python strings are modelled as Lean `String` values and every string
primitive the code uses (`in`, `lower()`, slicing, `split`, `strip`, ...) is
given an executable Lean counterpart operating on the underlying character
list, with Python semantics.  Network and UI effects are made explicit:
the Brave-Search HTTP layer becomes an oracle parameter, UI status calls are
either dropped (pure status text) or recorded as result fields (the
no-tools-available error state), and `st.session_state` reads become
function arguments.
-/

/-- Python whitespace characters (the ASCII part of `\s` / `str.strip()`). -/
def pyIsSpace (c : Char) : Bool :=
  c == ' ' || c == '\t' || c == '\n' || c == '\x0d' || c == '\x0b' || c == '\x0c'

/-- Python `pat in hay` substring test on character lists. -/
def lcContains (pat : List Char) : List Char → Bool
  | [] => pat.isEmpty
  | c :: t => pat.isPrefixOf (c :: t) || lcContains pat t

/-- Python `needle in hay` on strings. -/
def pyIn (needle hay : String) : Bool := lcContains needle.data hay.data

/-- Python `s.lower()` (ASCII). -/
def pyLower (s : String) : String := ⟨s.data.map Char.toLower⟩

/-- Python `len(s)` (a character count). -/
def pyLen (s : String) : Nat := s.data.length

/-- Python `s[:n]` (a character slice). -/
def pyTake (n : Nat) (s : String) : String := ⟨s.data.take n⟩

/-- Python `s.startswith(p)`. -/
def pyStartsWith (p s : String) : Bool := p.data.isPrefixOf s.data

/-- Helper for `str.split(sep)` on character lists; `sep = s0 :: sr` and
    `acc` holds the reversed current segment.  The fuel argument only makes
    the recursion structural (so that it reduces in the kernel); one unit
    is spent per inspected character, so `hay.length + 1` never runs out. -/
def lcSplitOnAux (s0 : Char) (sr : List Char) :
    Nat → List Char → List Char → List (List Char)
  | 0, rest, acc => [acc.reverse ++ rest]
  | _ + 1, [], acc => [acc.reverse]
  | fuel + 1, c :: t, acc =>
    if (s0 :: sr).isPrefixOf (c :: t) then
      acc.reverse :: lcSplitOnAux s0 sr fuel (t.drop sr.length) []
    else lcSplitOnAux s0 sr fuel t (c :: acc)

/-- Python `s.split(sep)` for a non-empty separator. -/
def pySplitOn (sep s : String) : List String :=
  match sep.data with
  | [] => [s]
  | s0 :: sr => (lcSplitOnAux s0 sr (s.data.length + 1) s.data []).map (fun l => ⟨l⟩)

/-- Helper for `str.split(sep, 1)`: splits at the first occurrence, if any. -/
def lcSplitFirst (sep : List Char) : List Char → Option (List Char × List Char)
  | [] => none
  | c :: t =>
    if sep.isPrefixOf (c :: t) then some ([], (c :: t).drop sep.length)
    else (lcSplitFirst sep t).map (fun p => (c :: p.1, p.2))

/-- Python `s.split(sep, 1)` when it produces two parts (`none` when the
    separator does not occur, in which case Python returns `[s]`). -/
def pySplitFirst (sep s : String) : Option (String × String) :=
  (lcSplitFirst sep.data s.data).map (fun p => (⟨p.1⟩, ⟨p.2⟩))

/-- Python `s.rstrip(ch)` for a one-character strip set. -/
def pyRStrip (ch : Char) (s : String) : String :=
  ⟨(s.data.reverse.dropWhile (· == ch)).reverse⟩

/-- Python `s.strip()` (whitespace on both ends). -/
def pyStrip (s : String) : String :=
  ⟨(s.data.dropWhile pyIsSpace).reverse.dropWhile pyIsSpace |>.reverse⟩

/-- Python `s.strip(chars)` for an explicit strip set. -/
def pyStripChars (chars : List Char) (s : String) : String :=
  ⟨((s.data.dropWhile (chars.contains ·)).reverse.dropWhile (chars.contains ·)).reverse⟩

/-- Helper for Python `s.split()`: whitespace-separated words, no empties. -/
def lcWordsAux : List Char → List Char → List (List Char)
  | [], cur => if cur.isEmpty then [] else [cur.reverse]
  | c :: t, cur =>
    if pyIsSpace c then
      if cur.isEmpty then lcWordsAux t [] else cur.reverse :: lcWordsAux t []
    else lcWordsAux t (c :: cur)

/-- Python `s.split()` (split on whitespace runs). -/
def pyWords (s : String) : List String := (lcWordsAux s.data []).map (fun l => ⟨l⟩)

/-- Python `sep.join(xs)`. -/
def pyJoin (sep : String) (xs : List String) : String :=
  match xs with
  | [] => ""
  | x :: t => t.foldl (fun acc y => acc ++ sep ++ y) x

/-! ### The regular expressions used by `mcp.py`

`mcp.py` uses four fixed regular expressions; each is modelled directly as
an executable matcher with Python `re.search` semantics (leftmost match,
alternatives in order, greedy repetition with backtracking).  Because none
of the character classes involved contains the character that must follow
it, the greedy stars never need to backtrack internally, which the
implementations below exploit.
-/

/-- ASCII letter (`[a-zA-Z]`). -/
def isAsciiAlpha (c : Char) : Bool := ('a' ≤ c && c ≤ 'z') || ('A' ≤ c && c ≤ 'Z')

/-- ASCII digit. -/
def isAsciiDigit (c : Char) : Bool := '0' ≤ c && c ≤ '9'

/-- `[a-zA-Z0-9]`. -/
def isAlnumCh (c : Char) : Bool := isAsciiAlpha c || isAsciiDigit c

/-- Python word character (`\w`, ASCII part), for `\b` boundaries. -/
def isWordCh (c : Char) : Bool := isAlnumCh c || c == '_'

/-- `[-a-zA-Z0-9]`. -/
def isLabelCh (c : Char) : Bool := isAlnumCh c || c == '-'

/-- Match `https?://[^\s]+|www\.[^\s]+` anchored at the start of `cs`,
    returning the matched text. -/
def urlAltAt (cs : List Char) : Option (List Char) :=
  if ("https://".data).isPrefixOf cs then
    let rest := (cs.drop 8).takeWhile (fun c => !pyIsSpace c)
    if rest.isEmpty then none else some ("https://".data ++ rest)
  else if ("http://".data).isPrefixOf cs then
    let rest := (cs.drop 7).takeWhile (fun c => !pyIsSpace c)
    if rest.isEmpty then none else some ("http://".data ++ rest)
  else if ("www.".data).isPrefixOf cs then
    let rest := (cs.drop 4).takeWhile (fun c => !pyIsSpace c)
    if rest.isEmpty then none else some ("www.".data ++ rest)
  else none

/-- `re.search(r'https?://[^\s]+|www\.[^\s]+', s)`: the leftmost match. -/
def urlSearchAux : List Char → Option (List Char)
  | [] => none
  | c :: t =>
    match urlAltAt (c :: t) with
    | some m => some m
    | none => urlSearchAux t

/-- The URL pattern of `mcp.py` (`group(0)` of the leftmost match). -/
def url_search (s : String) : Option String := (urlSearchAux s.data).map (fun l => ⟨l⟩)

/-- Match one `[a-zA-Z0-9][-a-zA-Z0-9]*\.` group anchored at `cs`;
    returns the length consumed. -/
def labelDotLen (cs : List Char) : Option Nat :=
  match cs with
  | [] => none
  | c :: t =>
    if isAlnumCh c then
      let run := t.takeWhile isLabelCh
      match t.drop run.length with
      | '.' :: _ => some (run.length + 2)
      | _ => none
    else none

/-- Match `[a-zA-Z]{2,}\b` anchored at `cs`; returns the length consumed.
    (The greedy repetition needs no backtracking: shortening the run would
    put a letter, hence a word character, right after the match.) -/
def domainTailLen (cs : List Char) : Option Nat :=
  let run := cs.takeWhile isAsciiAlpha
  let rest := cs.drop run.length
  if 2 ≤ run.length && (match rest with | [] => true | c :: _ => !isWordCh c) then
    some run.length
  else none

/-- Match `([a-zA-Z0-9][-a-zA-Z0-9]*\.)+[a-zA-Z]{2,}\b` anchored at `cs`,
    greedy in the group count with backtracking; `fuel` bounds the group
    count (each group consumes at least two characters). -/
def domainGroupsLen : Nat → List Char → Option Nat
  | 0, _ => none
  | fuel + 1, cs =>
    match labelDotLen cs with
    | none => none
    | some k =>
      match domainGroupsLen fuel (cs.drop k) with
      | some rest => some (k + rest)
      | none => (domainTailLen (cs.drop k)).map (k + ·)

/-- Scan for the domain pattern; `prevWord` tracks whether the previous
    character is a word character (for the leading `\b`). -/
def domainSearchAux : Bool → List Char → Option (List Char)
  | _, [] => none
  | prevWord, c :: t =>
    match (if prevWord then none else domainGroupsLen (c :: t).length (c :: t)) with
    | some k => some ((c :: t).take k)
    | none => domainSearchAux (isWordCh c) t

/-- `re.search(r'\b([a-zA-Z0-9][-a-zA-Z0-9]*\.)+[a-zA-Z]{2,}\b', s)`:
    `group(0)` of the leftmost match. -/
def domain_search (s : String) : Option String :=
  (domainSearchAux false s.data).map (fun l => ⟨l⟩)

/-- Existence scan for an anchored matcher. -/
def scanAny (p : List Char → Bool) : List Char → Bool
  | [] => p []
  | c :: t => p (c :: t) || scanAny p t

/-- One position of the broad URL pattern used at the intent-classification
    stage of `select_mcp_tools` (line 875 of `mcp.py`):
    `https?://[^\s]+|www\.[^\s]+|label\.label\.[a-zA-Z]{2,}|label\.[a-zA-Z]{2,}`
    (no word boundaries); existence only, as the code only tests truthiness. -/
def urlBroadAt (cs : List Char) : Bool :=
  (urlAltAt cs).isSome ||
  (match labelDotLen cs with
   | some k =>
     (match labelDotLen (cs.drop k) with
      | some k2 => 2 ≤ ((cs.drop (k + k2)).takeWhile isAsciiAlpha).length
      | none => false) ||
     2 ≤ ((cs.drop k).takeWhile isAsciiAlpha).length
   | none => false)

/-- Truthiness of the broad URL pattern search on `s`. -/
def urlBroadFound (s : String) : Bool := scanAny urlBroadAt s.data

/-- One position of `re.search(r'(content|information|data|text)\s+from', s)`. -/
def contentFromAt (cs : List Char) : Bool :=
  ["content", "information", "data", "text"].any (fun w =>
    w.data.isPrefixOf cs &&
    (let r := cs.drop w.data.length
     let sp := r.takeWhile pyIsSpace
     !sp.isEmpty && ("from".data.isPrefixOf (r.drop sp.length))))

/-- Truthiness of the `(content|information|data|text)\s+from` search. -/
def contentFromFound (s : String) : Bool := scanAny contentFromAt s.data

/-! ### `search.py` — the Search Client

`brave_search` is embedded with its environment made explicit: the
`BRAVE_API_KEY` variable becomes an `Option String` argument and the HTTP
layer becomes an oracle `net` mapping the request parameters and the attempt
index to either a decoded JSON response or a `requests` exception message.
`st.warning` calls are recorded in the `warning` field, `time.sleep` calls
in the `sleeps` field, and the number of `requests.get` calls in
`attempts`.  The function is total by construction (nothing escapes it),
mirroring the fact that every exception path in the source is caught.
-/

/-- The request parameters built by `brave_search` (query string of the GET). -/
structure BraveParams where
  q : String
  count : Nat
  country : String
  freshness : Option String
  deriving Repr, DecidableEq

/-- One raw web result as found in the decoded JSON response. -/
structure RawResult where
  title : Option String := none
  url : Option String := none
  description : Option String := none
  snippet : Option String := none
  pageContent : Option String := none
  published_date : Option String := none
  deriving Repr, DecidableEq

/-- One raw cluster topic from the decoded JSON response. -/
structure RawCluster where
  title : Option String := none
  deriving Repr, DecidableEq

/-- The parts of the decoded JSON response that `brave_search` reads. -/
structure BraveResponse where
  results : List RawResult := []
  cluster_topics : List RawCluster := []
  deriving Repr, DecidableEq

/-- A processed search-result record (`SearchResultRecord` of the spec). -/
structure SearchRecord where
  title : String
  url : String
  snippet : String
  content : String
  published_date : String
  cluster : Option String := none
  deriving Repr, DecidableEq

/-- Field extraction for one raw item (`item.get(...)` chain, including the
    Python truthiness of `item.get('description') or item.get('snippet', '')`). -/
def processRawResult (item : RawResult) : SearchRecord :=
  { title := item.title.getD ""
    url := item.url.getD ""
    snippet :=
      match item.description with
      | some d => if d == "" then item.snippet.getD "" else d
      | none => item.snippet.getD ""
    content := item.pageContent.getD ""
    published_date := item.published_date.getD ""
    cluster := none }

/-- Attach cluster titles: `results[i]['cluster'] = clusters[i]['title']`
    for `i < len(clusters)`, only when any clusters are present. -/
def attachClusters (clusters : List RawCluster) (results : List SearchRecord) :
    List SearchRecord :=
  if clusters.isEmpty then results
  else
    (results.enum).map (fun p =>
      match clusters.get? p.1 with
      | some c => { p.2 with cluster := some (c.title.getD "") }
      | none => p.2)

/-- The processing of a successful response body. -/
def processResponse (resp : BraveResponse) : List SearchRecord :=
  attachClusters resp.cluster_topics (resp.results.map processRawResult)

/-- The observable outcome of one `brave_search` call. -/
structure BraveRun where
  results : List SearchRecord
  attempts : Nat
  sleeps : List Nat
  warning : Option String
  deriving Repr, DecidableEq

/-- The retry loop of `brave_search` (`for attempt in range(max_retries)`),
    with `fuel = max_retries - attempt` and `delay` the current backoff
    delay.  On a `requests` exception: sleep `delay` and double it unless
    this was the last attempt, in which case the error is surfaced as a
    warning and the empty list returned. -/
def braveLoop (net : BraveParams → Nat → Except String BraveResponse)
    (params : BraveParams) (max_retries : Nat) :
    Nat → Nat → Nat → BraveRun
  | 0, _, _ => ⟨[], 0, [], none⟩
  | fuel + 1, attempt, delay =>
    match net params attempt with
    | Except.ok resp => ⟨processResponse resp, 1, [], none⟩
    | Except.error e =>
      if attempt < max_retries - 1 then
        let rest := braveLoop net params max_retries fuel (attempt + 1) (delay * 2)
        ⟨rest.results, rest.attempts + 1, delay :: rest.sleeps, rest.warning⟩
      else
        ⟨[], 1, [], some ("Error fetching search results: " ++ e)⟩

/-- `brave_search(query, count, country, freshness, max_retries)` from
    `search.py`, with the credential and the HTTP layer as arguments. -/
def brave_search (api_key : Option String)
    (net : BraveParams → Nat → Except String BraveResponse)
    (query : String) (count : Nat) (country : String)
    (freshness : Option String) (max_retries : Nat) : BraveRun :=
  match api_key with
  | none =>
    ⟨[], 0, [],
      some "Brave Search API key not set. Please set BRAVE_API_KEY in your environment."⟩
  | some _ =>
    let params : BraveParams := ⟨query, min count 50, country, freshness⟩
    braveLoop net params max_retries max_retries 0 1

/-- `format_search_results_for_context` from `search.py`: the context string
    and whether the metadata carries a result count. -/
def format_search_results_for_context (search_results : List SearchRecord) :
    String × Bool :=
  if search_results.isEmpty then ("", false)
  else
    let formatted := (search_results.enum).map (fun p =>
      "[" ++ Nat.repr (p.1 + 1) ++ "] " ++ p.2.title ++ ": " ++ p.2.snippet ++
      (if p.2.published_date != "" then " (Published: " ++ p.2.published_date ++ ")" else "") ++
      " (Source: " ++ p.2.url ++ ")")
    (pyJoin "\n" formatted, true)

/-! ### `mcp.py` — Tool Registry

The MCP settings are modelled by the fields the core reads: for each server
its `disabled` flag and its `autoApprove`/`alwaysAllow` function lists
(defaults as in the `.get` calls).  The `mcpServers` key may be absent.
Python's `set(auto_approve + always_allow)` iterates in an unspecified
order; following the spec (§4.3, stable-ordering requirement) the embedding
fixes first-occurrence (insertion) order.
-/

/-- The per-server configuration fields read by `mcp.py`. -/
structure McpServerConfig where
  autoApprove : List String := []
  alwaysAllow : List String := []
  disabled : Bool := false
  deriving Repr, DecidableEq

/-- The MCP settings object (`st.session_state.mcp_settings`). -/
structure McpSettings where
  mcpServers : Option (List (String × McpServerConfig))
  deriving Repr, DecidableEq

/-- First-occurrence deduplication with structural fuel (one unit per kept
    element; `l.length` never runs out because filtering only shrinks the
    list, and exhaustion returns the remainder unchanged, which keeps the
    membership semantics exact for any fuel). -/
def dedupKeepFirstAux : Nat → List String → List String
  | _, [] => []
  | 0, l => l
  | fuel + 1, x :: t => x :: dedupKeepFirstAux fuel (t.filter (fun y => y ≠ x))

/-- First-occurrence deduplication, the fixed iteration order chosen for
    Python's `set(...)`. -/
def dedupKeepFirst (l : List String) : List String := dedupKeepFirstAux l.length l

/-- `set(auto_approve + always_allow)` for one server. -/
def allowedFunctions (c : McpServerConfig) : List String :=
  dedupKeepFirst (c.autoApprove ++ c.alwaysAllow)

/-- The server loop of `get_available_mcp_tools`: enabled servers emit
    one `"{function}_{server_name}"` identifier per allowed function. -/
def collectTools (servers : List (String × McpServerConfig)) : List String :=
  servers.foldl
    (fun acc p =>
      if p.2.disabled then acc
      else acc ++ (allowedFunctions p.2).map (fun f => f ++ "_" ++ p.1))
    []

/-- The tools contributed by the configuration (before the fallback). -/
def unionTools (settings : McpSettings) : List String :=
  match settings.mcpServers with
  | none => []
  | some svs => collectTools svs

/-- Whether `brave-search` is explicitly marked disabled in the settings. -/
def braveExplicitlyDisabled (settings : McpSettings) : Bool :=
  match settings.mcpServers with
  | none => false
  | some svs =>
    match svs.find? (fun p => p.1 == "brave-search") with
    | some p => p.2.disabled
    | none => false

/-- The firecrawl block of the fallback tool list. -/
def firecrawlDefaultTools : List String :=
  ["firecrawl_scrape_firecrawl-mcp", "firecrawl_crawl_firecrawl-mcp",
   "firecrawl_search_firecrawl-mcp", "firecrawl_map_firecrawl-mcp",
   "firecrawl_deep_research_firecrawl-mcp"]

/-- `get_available_mcp_tools` from `mcp.py`. -/
def get_available_mcp_tools (settings : McpSettings) : List String :=
  if (unionTools settings).isEmpty then
    (if braveExplicitlyDisabled settings then [] else ["search_brave-search"]) ++
    firecrawlDefaultTools ++
    ["tavily-search_tavily-mcp", "get_documentation_perplexity-mcp",
     "deep-research_Serper-search-mcp"]
  else unionTools settings

/-- `get_available_mcp_servers` from `mcp.py`. -/
def get_available_mcp_servers (settings : McpSettings) : List String :=
  match settings.mcpServers with
  | none => []
  | some svs => (svs.filter (fun p => !p.2.disabled)).map (fun p => p.1)

/-! ### `mcp.py` — Tool Executor

`execute_mcp_tool` is embedded with the Search Client as an oracle
argument `bs : query → count → freshness → results` (in the source it is
`brave_search`, whose own behaviour is modelled separately above; it never
raises).  Status-placeholder calls are pure UI text and are dropped.  All
embedded operations are total, so the source's `except` clause is dead in
the embedding.  Only search branches ever assign `data`, always a result
list, so `data` is an `Option (List SearchRecord)`.
-/

/-- The result envelope (`ToolResultEnvelope` of the spec). -/
structure MCPResult where
  tool : String
  success : Bool
  data : Option (List SearchRecord)
  error : Option String
  deriving Repr, DecidableEq

/-- The news keyword list used by the executor's search branches. -/
def newsKeywords : List String :=
  ["news", "latest", "recent", "current events", "today", "breaking"]

/-- `if not url.startswith(('http://', 'https://')): url = 'https://' + url`. -/
def ensureProtocol (url : String) : String :=
  if pyStartsWith "http://" url || pyStartsWith "https://" url then url
  else "https://" ++ url

/-- Punctuation strip set `'.,?!:;()[]{}\'\"'` used on candidate URLs. -/
def urlPunct : List Char := ".,?!:;()[]\x7b\x7d\x27\"".data

/-- The `domain_keywords` loop of the scrape/crawl URL extraction: for the
    first keyword present in `query.lower()`, look for a domain in the text
    between its first two occurrences, else take the first word there if it
    contains a dot (stripping surrounding punctuation); continue with the
    next keyword otherwise (the Python loop only breaks on success). -/
def keywordUrlScan (kws : List String) (query : String) : Option String :=
  kws.findSome? (fun keyword =>
    if pyIn keyword (pyLower query) then
      match pySplitOn keyword (pyLower query) with
      | _ :: p1 :: _ =>
        match domain_search p1 with
        | some d => some (ensureProtocol d)
        | none =>
          match pyWords (pyStrip p1) with
          | w :: _ =>
            let potential := pyStripChars urlPunct w
            if pyIn "." potential then some (ensureProtocol potential) else none
          | [] => none
      | _ => none
    else none)

/-- URL extraction for the firecrawl scrape/crawl branches: explicit URL
    pattern, then bare domain pattern, then the keyword scan. -/
def extractUrlForFirecrawl (kws : List String) (query : String) : Option String :=
  match (match url_search query with
         | some u => some u
         | none => domain_search query) with
  | some u => some (ensureProtocol u)
  | none => keywordUrlScan kws query

/-- The `domain_keywords` list of the scrape parameter extraction. -/
def scrapeDomainKeywords : List String :=
  ["website", "site", "page", "url", "link", "web", "content from",
   "information from", "data from", "scrape"]

/-- The `domain_keywords` list of the crawl parameter extraction. -/
def crawlDomainKeywords : List String :=
  ["website", "site", "page", "url", "link", "web", "crawl", "spider",
   "explore", "navigate"]

/-- `execute_mcp_tool(tool_name, query)` from `mcp.py`. -/
def execute_mcp_tool (bs : String → Nat → Option String → List SearchRecord)
    (tool_name query : String) : MCPResult :=
  match pySplitFirst "_" tool_name with
  | none => ⟨tool_name, false, none, some ("Invalid tool name format: " ++ tool_name)⟩
  | some (function_name, server_name) =>
    if server_name == "brave-search" && pyIn "search" (pyLower function_name) then
      let freshness :=
        if pyIn "news" (pyLower function_name) || pyIn "latest" (pyLower query) then
          some "d"
        else none
      let search_results := bs query 10 freshness
      if search_results.isEmpty then
        ⟨tool_name, false, none, some "No search results found"⟩
      else
        ⟨tool_name, true, some search_results, none⟩
    else if pyIn "firecrawl" server_name then
      if pyIn "scrape" (pyLower function_name) then
        match extractUrlForFirecrawl scrapeDomainKeywords query with
        | none =>
          ⟨tool_name, false, none,
            some "No valid URL found in the query. Please provide a URL to scrape."⟩
        | some url =>
          ⟨tool_name, false, none,
            some ("Web scraping for " ++ url ++
              " is not implemented. Please check your MCP configuration.")⟩
      else if pyIn "crawl" (pyLower function_name) then
        match extractUrlForFirecrawl crawlDomainKeywords query with
        | none =>
          ⟨tool_name, false, none,
            some "No valid URL found in the query. Please provide a URL to crawl."⟩
        | some url =>
          ⟨tool_name, false, none,
            some ("Web crawling for " ++ url ++
              " is not implemented. Please check your MCP configuration.")⟩
      else if pyIn "search" (pyLower function_name) then
        let is_news_query := newsKeywords.any (fun k => pyIn k (pyLower query))
        let search_results := bs query 10 (if is_news_query then some "d" else none)
        if search_results.isEmpty then
          ⟨tool_name, false, none,
            some "No search results found. Please check your search API configuration."⟩
        else
          -- Source (mcp.py lines 440-441) assigns result["data"] but,
          -- unlike every sibling search branch, never sets success to True.
          ⟨tool_name, false, some search_results, none⟩
      else if pyIn "deep_research" (pyLower function_name) then
        ⟨tool_name, false, none,
          some "Deep research integration is not implemented. Please check your MCP configuration."⟩
      else if pyIn "map" (pyLower function_name) then
        ⟨tool_name, false, none,
          some "Map functionality is not implemented. Please check your MCP configuration."⟩
      else
        ⟨tool_name, false, none,
          some ("Firecrawl tool " ++ function_name ++
            " is not implemented. Please check your MCP configuration.")⟩
    else if pyIn "tavily" server_name && pyIn "search" (pyLower function_name) then
      let is_news_query := newsKeywords.any (fun k => pyIn k (pyLower query))
      let search_results := bs query 10 (if is_news_query then some "d" else none)
      if search_results.isEmpty then
        ⟨tool_name, false, none,
          some "No search results found. Please check your search API configuration."⟩
      else
        ⟨tool_name, true, some search_results, none⟩
    else if pyIn "perplexity" server_name then
      if pyIn "documentation" (pyLower function_name) then
        -- The source only builds params here and assigns no result fields.
        ⟨tool_name, false, none, none⟩
      else if pyIn "search" (pyLower function_name) then
        let is_news_query := newsKeywords.any (fun k => pyIn k (pyLower query))
        let search_results := bs query 10 (if is_news_query then some "d" else none)
        if search_results.isEmpty then
          ⟨tool_name, false, none,
            some "No search results found. Please check your search API configuration."⟩
        else
          ⟨tool_name, true, some search_results, none⟩
      else if pyIn "chat" (pyLower function_name) then
        ⟨tool_name, false, none,
          some "Perplexity chat integration is not implemented. Please check your MCP configuration."⟩
      else
        ⟨tool_name, false, none, none⟩
    else if pyIn "serper" server_name then
      let is_news_query := newsKeywords.any (fun k => pyIn k (pyLower query))
      let search_results := bs query 10 (if is_news_query then some "d" else none)
      if search_results.isEmpty then
        ⟨tool_name, false, none,
          some "No search results found. Please check your search API configuration."⟩
      else
        ⟨tool_name, true, some search_results, none⟩
    else if pyIn "mcp-reasoner" server_name then
      ⟨tool_name, false, none,
        some "MCP reasoner integration is not implemented. Please check your MCP configuration."⟩
    else if pyIn "search" (pyLower function_name) then
      let is_news_query := newsKeywords.any (fun k => pyIn k (pyLower query))
      let search_results := bs query 10 (if is_news_query then some "d" else none)
      if search_results.isEmpty then
        ⟨tool_name, false, none,
          some "No search results found. Please check your search API configuration."⟩
      else
        ⟨tool_name, true, some search_results, none⟩
    else
      ⟨tool_name, false, none,
        some ("Tool " ++ tool_name ++
          " is not implemented. Please check your MCP configuration.")⟩

/-! ### `mcp.py` — Tool Selector

The intent keyword lists below are transcribed verbatim from the
`intent_categories` dictionary of `select_mcp_tools` (duplicates kept).
-/

def kw_web_scraping : List String :=
  ["scrape", "website", "webpage", "web page", "site content", "extract from site",
   "get content from", "content from", "information from", "data from", "text from", "extract content",
   "extract data", "extract information", "extract text", "get website", "get webpage", "get web page",
   "get site", "get page", "fetch website", "fetch webpage", "fetch web page", "fetch site",
   "fetch page", "retrieve website", "retrieve webpage", "retrieve web page", "retrieve site", "retrieve page"]

def kw_web_crawling : List String :=
  ["crawl", "spider", "website structure", "site map", "multiple pages", "scan website",
   "scan site", "scan web", "scan page", "explore website", "explore site", "explore web",
   "explore page", "navigate website", "navigate site", "navigate web", "navigate page"]

def kw_search : List String :=
  ["search", "find information", "look up", "find out", "information about", "what is",
   "who is", "where is", "when did", "how to", "why is", "can you",
   "tell me about", "explain", "describe", "define", "meaning of", "definition of",
   "information on", "details about", "facts about", "learn about"]

def kw_news : List String :=
  ["news", "latest", "recent", "current events", "today\x27s headlines", "breaking",
   "current news", "recent developments", "latest updates", "current situation", "what\x27s happening", "recent news",
   "today\x27s news", "this week\x27s news", "this month\x27s news"]

def kw_documentation : List String :=
  ["documentation", "docs", "api", "library", "framework", "how to use",
   "code example", "programming", "coding", "developer", "development", "software",
   "application", "app", "program", "script", "function", "method",
   "class", "object", "variable", "constant", "parameter", "argument",
   "return value", "syntax", "semantics", "implementation", "interface", "module",
   "package", "dependency", "import", "export", "compile", "build",
   "deploy", "run", "execute", "debug", "test", "unit test",
   "integration test", "functional test", "performance test", "benchmark", "profiling", "optimization",
   "refactoring", "code review", "version control", "git", "svn", "mercurial",
   "repository", "commit", "push", "pull", "merge", "branch",
   "tag", "release", "deployment", "continuous integration", "continuous delivery", "continuous deployment",
   "devops", "agile", "scrum", "kanban", "waterfall", "lean",
   "extreme programming", "pair programming", "code quality", "code coverage", "code complexity", "code smell",
   "technical debt", "clean code", "design pattern", "architecture", "microservice", "monolith",
   "serverless", "cloud", "container", "docker", "kubernetes", "orchestration",
   "scaling", "load balancing", "high availability", "fault tolerance", "disaster recovery", "backup",
   "restore", "monitoring", "logging", "alerting", "metrics", "analytics",
   "dashboard", "visualization", "reporting", "business intelligence", "data science", "machine learning",
   "artificial intelligence", "deep learning", "neural network", "natural language processing", "computer vision", "speech recognition",
   "speech synthesis", "chatbot", "virtual assistant", "recommendation system", "personalization", "user experience",
   "user interface", "frontend", "backend", "full stack", "web development", "mobile development",
   "desktop development", "embedded development", "game development", "database", "sql", "nosql",
   "relational database", "document database", "key-value database", "graph database", "time series database", "in-memory database",
   "distributed database", "data warehouse", "data lake", "data mining", "data analysis", "data visualization",
   "data modeling", "data engineering", "data architecture", "data governance", "data quality", "data security",
   "data privacy", "data protection", "data backup", "data recovery", "data migration", "data integration",
   "data transformation", "data pipeline", "data streaming", "data batch processing", "data real-time processing", "data near-real-time processing",
   "data offline processing", "data online processing", "data analytics", "data science", "data scientist", "data engineer",
   "data analyst", "data architect", "data administrator", "database administrator", "database developer", "database designer",
   "database architect", "database engineer", "database analyst", "database administrator", "database security", "database performance",
   "database optimization", "database tuning", "database indexing", "database partitioning", "database sharding", "database replication",
   "database backup", "database recovery", "database migration", "database upgrade", "database downgrade", "database version control",
   "database schema", "database model", "database design", "database architecture", "database security", "database performance",
   "database optimization", "database tuning", "database indexing", "database partitioning", "database sharding", "database replication",
   "database backup", "database recovery", "database migration", "database upgrade", "database downgrade", "database version control",
   "database schema", "database model", "database design", "database architecture"]

def kw_research : List String :=
  ["research", "in-depth", "comprehensive", "analyze", "study", "investigate",
   "deep dive", "thorough", "detailed", "extensive", "exhaustive", "complete",
   "full", "comprehensive", "all-inclusive", "all-encompassing", "all-embracing", "all-around",
   "all-out", "all-over", "all-purpose", "all-round", "all-sided", "all-embracing",
   "all-encompassing", "all-inclusive", "all-around", "all-out", "all-over", "all-purpose",
   "all-round", "all-sided"]

def kw_reasoning : List String :=
  ["solve", "equation", "formula", "math", "physics", "breakdown",
   "complex task", "step by step", "analyze problem", "solution", "answer", "result",
   "output", "outcome", "conclusion", "finding", "discovery", "revelation",
   "insight", "understanding", "comprehension", "grasp", "mastery", "knowledge",
   "wisdom", "intelligence", "intellect", "mind", "brain", "thought",
   "thinking", "cognition", "perception", "conception", "idea", "notion",
   "concept", "theory", "hypothesis", "conjecture", "supposition", "assumption",
   "presumption", "premise", "postulate", "axiom", "theorem", "law",
   "rule", "principle", "guideline", "standard", "criterion", "measure",
   "benchmark", "yardstick", "touchstone", "litmus test", "acid test", "test",
   "trial", "experiment", "investigation", "examination", "inspection", "scrutiny",
   "review", "analysis", "evaluation", "assessment", "appraisal", "judgment",
   "verdict", "decision", "determination", "resolution", "conclusion", "finding",
   "discovery", "revelation", "insight", "understanding", "comprehension", "grasp",
   "mastery", "knowledge", "wisdom", "intelligence", "intellect", "mind",
   "brain", "thought", "thinking", "cognition", "perception", "conception",
   "idea", "notion", "concept", "theory", "hypothesis", "conjecture",
   "supposition", "assumption", "presumption", "premise", "postulate", "axiom",
   "theorem", "law", "rule", "principle", "guideline", "standard",
   "criterion", "measure", "benchmark", "yardstick", "touchstone", "litmus test",
   "acid test", "test", "trial", "experiment", "investigation", "examination",
   "inspection", "scrutiny", "review", "analysis", "evaluation", "assessment",
   "appraisal", "judgment", "verdict", "decision", "determination", "resolution",
   "conclusion", "finding", "discovery", "revelation", "insight", "understanding",
   "comprehension", "grasp", "mastery", "knowledge", "wisdom", "intelligence",
   "intellect", "mind", "brain", "thought", "thinking", "cognition",
   "perception", "conception", "idea", "notion", "concept", "theory",
   "hypothesis", "conjecture", "supposition", "assumption", "presumption", "premise",
   "postulate", "axiom", "theorem", "law", "rule", "principle",
   "guideline", "standard", "criterion", "measure", "benchmark", "yardstick",
   "touchstone", "litmus test", "acid test", "test", "trial", "experiment",
   "investigation", "examination", "inspection", "scrutiny", "review", "analysis",
   "evaluation", "assessment", "appraisal", "judgment", "verdict", "decision",
   "determination", "resolution"]

/-- The `intent_categories` dictionary, in its insertion order. -/
def intentCategories : List (String × List String) :=
  [("web_scraping", kw_web_scraping), ("web_crawling", kw_web_crawling),
   ("search", kw_search), ("news", kw_news), ("documentation", kw_documentation),
   ("research", kw_research), ("reasoning", kw_reasoning)]

/-- The outcome of one `select_mcp_tools` call: the returned tool list and
    whether the no-tools-available error state was signalled
    (`status_placeholder.error` at line 711 of `mcp.py`).  The remaining
    status-text side effects are pure UI output; the immediate tool
    execution inside the direct scrape/crawl handlers only stores results
    in session state and does not affect the returned selection, so it is
    not part of the value-level embedding. -/
structure SelectOutcome where
  tools : List String
  noToolsError : Bool
  deriving Repr, DecidableEq

/-- `[list[0]]` when non-empty, else nothing selected. -/
def headOrNil : List String → List String
  | [] => []
  | t :: _ => [t]

/-- The direct scrape handler at the top of `select_mcp_tools`
    (lines 642-671): fires when the query mentions "scrape" together with a
    URL, a domain, "content from" or "website", and a scrape tool exists. -/
def scrapePhase (availableTools : List String) (query qLower : String) :
    Option (List String) :=
  if pyIn "scrape" qLower then
    if (url_search query).isSome || (domain_search query).isSome ||
        pyIn "content from" qLower || pyIn "website" qLower then
      match availableTools.filter (fun t => pyIn "scrape" (pyLower t)) with
      | t0 :: _ => some [t0]
      | [] => none
    else none
  else none

/-- The direct crawl handler (lines 674-703). -/
def crawlPhase (availableTools : List String) (query qLower : String) :
    Option (List String) :=
  if pyIn "crawl" qLower then
    if (url_search query).isSome || (domain_search query).isSome ||
        pyIn "website" qLower || pyIn "site" qLower then
      match availableTools.filter (fun t => pyIn "crawl" (pyLower t)) with
      | t0 :: _ => some [t0]
      | [] => none
    else none
  else none

/-- The first intent category owning a keyword `k` with `"use " ++ k` in the
    query (lines 740-747). -/
def explicitFunctionCategory (qLower : String) : Option String :=
  (intentCategories.find? (fun p => p.2.any (fun k => pyIn ("use " ++ k) qLower))).map
    (fun p => p.1)

/-- Sub-selection inside the explicit server branch (lines 754-797):
    special cases for `mcp-reasoner` and `firecrawl-mcp`, first requested
    tool otherwise.  `requested` is non-empty at every call site. -/
def explicitServerPick (server : String) (requested : List String)
    (qLower : String) : List String :=
  if server == "mcp-reasoner" then
    if pyIn "breakdown" qLower || pyIn "complex task" qLower then
      headOrNil (requested.filter (fun t => pyIn "breakdown_complex_task" t))
    else if pyIn "equation" qLower || pyIn "formula" qLower || pyIn "math" qLower then
      headOrNil (requested.filter (fun t => pyIn "solve_equations" t))
    else headOrNil requested
  else if server == "firecrawl-mcp" then
    if kw_web_scraping.any (fun k => pyIn k qLower) then
      headOrNil (requested.filter (fun t => pyIn "scrape" (pyLower t)))
    else if kw_web_crawling.any (fun k => pyIn k qLower) then
      headOrNil (requested.filter (fun t => pyIn "crawl" (pyLower t)))
    else headOrNil requested
  else headOrNil requested

/-- The explicit function-category branch (lines 820-861). -/
def explicitFunctionPick (category : String) (availableTools : List String)
    (_qLower : String) : List String :=
  if category == "web_scraping" then
    headOrNil (availableTools.filter (fun t => pyIn "scrape" (pyLower t)))
  else if category == "web_crawling" then
    headOrNil (availableTools.filter (fun t => pyIn "crawl" (pyLower t)))
  else if category == "search" then
    headOrNil (availableTools.filter (fun t => pyIn "search" (pyLower t)))
  else if category == "news" then
    headOrNil (availableTools.filter (fun t =>
      pyIn "news" (pyLower t) || pyIn "tavily" (pyLower t)))
  else if category == "documentation" then
    headOrNil (availableTools.filter (fun t =>
      pyIn "documentation" (pyLower t) || pyIn "perplexity" (pyLower t)))
  else if category == "research" then
    headOrNil (availableTools.filter (fun t =>
      pyIn "research" (pyLower t) || pyIn "serper" (pyLower t)))
  else if category == "reasoning" then
    headOrNil (availableTools.filter (fun t => pyIn "mcp-reasoner" t))
  else []

/-- The news-prioritisation reordering of search tools (lines 981-993 and
    1081-1094): deep/research/comprehensive tools first, then the rest,
    appending only tools not already in the growing list. -/
def prioritizeSearchTools (search_tools : List String) : List String :=
  let first := search_tools.filter (fun t =>
    ["deep", "research", "comprehensive"].any (fun term => pyIn term (pyLower t)))
  search_tools.foldl (fun acc t => if acc.contains t then acc else acc ++ [t]) first

/-- The classification pipeline of `select_mcp_tools` after the explicit
    request handling (lines 868-1114), threading `tools_used`. -/
def selectSteps (availableTools : List String) (enableWebSearch : Bool)
    (qLower : String) (tools0 : List String) : List String :=
  -- Step: URL/domain/scrape-intent detection (lines 871-919)
  let url_b := urlBroadFound qLower
  let domain_b := (domain_search qLower).isSome
  let has_scraping_intent := kw_web_scraping.any (fun k => pyIn k qLower)
  let tools1 :=
    if (url_b || domain_b || has_scraping_intent) && tools0.isEmpty then
      let firecrawl_tools := availableTools.filter (fun t => pyIn "firecrawl" (pyLower t))
      let web_tools :=
        if firecrawl_tools.isEmpty then
          availableTools.filter (fun t =>
            pyIn "scrape" (pyLower t) || pyIn "crawl" (pyLower t))
        else firecrawl_tools
      match web_tools with
      | [] => tools0
      | w0 :: _ =>
        if kw_web_crawling.any (fun k => pyIn k qLower) then
          match web_tools.filter (fun t => pyIn "crawl" (pyLower t)) with
          | c0 :: _ => tools0 ++ [c0]
          | [] => tools0 ++ [w0]
        else
          match web_tools.filter (fun t => pyIn "scrape" (pyLower t)) with
          | s0 :: _ => tools0 ++ [s0]
          | [] => tools0 ++ [w0]
    else tools0
  -- Step: generic search intent (lines 921-937)
  let tools2 :=
    if tools1.isEmpty && enableWebSearch then
      if kw_search.any (fun k => pyIn k qLower) then
        match availableTools.filter (fun t => pyIn "search" (pyLower t)) with
        | t :: _ => tools1 ++ [t]
        | [] => tools1
      else tools1
    else tools1
  -- Step: reasoning intent (lines 939-965)
  let tools3 :=
    if (kw_reasoning.any (fun k => pyIn k qLower)) &&
        !(tools2.any (fun t => pyIn "mcp-reasoner" t)) then
      match availableTools.filter (fun t => pyIn "mcp-reasoner" t) with
      | [] => tools2
      | r0 :: rrest =>
        if pyIn "breakdown" qLower || pyIn "complex task" qLower then
          match (r0 :: rrest).filter (fun t => pyIn "breakdown_complex_task" t) with
          | b :: _ => tools2 ++ [b]
          | [] => tools2
        else if pyIn "equation" qLower || pyIn "formula" qLower then
          match (r0 :: rrest).filter (fun t => pyIn "solve_equations" t) with
          | b :: _ => tools2 ++ [b]
          | [] => tools2
        else tools2 ++ [r0]
    else tools2
  -- Step: news intent (lines 967-1003)
  let tools4 :=
    if kw_news.any (fun k => pyIn k qLower) then
      let news_tools0 := availableTools.filter (fun t => pyIn "news" (pyLower t))
      let news_tools :=
        if news_tools0.isEmpty then
          prioritizeSearchTools
            (availableTools.filter (fun t => pyIn "search" (pyLower t)))
        else news_tools0
      match news_tools with
      | n0 :: _ => if tools3.contains n0 then tools3 else tools3 ++ [n0]
      | [] => tools3
    else tools3
  -- Step: documentation / code intent (lines 1006-1015)
  let tools5 :=
    if (kw_documentation.any (fun k => pyIn k qLower)) ||
        pyIn "code" qLower || pyIn "programming" qLower then
      match availableTools.filter (fun t =>
          pyIn "documentation" (pyLower t) || pyIn "perplexity" (pyLower t)) with
      | c0 :: _ => if tools4.contains c0 then tools4 else tools4 ++ [c0]
      | [] => tools4
    else tools4
  -- Step: generic web intent (lines 1017-1056)
  let has_web_intent := (kw_web_scraping ++ kw_web_crawling).any (fun k => pyIn k qLower)
  let web_related := has_web_intent || (domain_search qLower).isSome ||
    contentFromFound qLower || pyIn "scrape" qLower
  let tools6 :=
    if web_related && !(tools5.any (fun t =>
        pyIn "scrape" t || pyIn "crawl" t || pyIn "firecrawl" t)) then
      match availableTools.filter (fun t => pyIn "firecrawl" (pyLower t)) with
      | f0 :: frest =>
        let tool :=
          match (f0 :: frest).filter (fun t => pyIn "scrape" (pyLower t)) with
          | s0 :: _ => s0
          | [] => f0
        tools5 ++ [tool]
      | [] =>
        match availableTools.filter (fun t =>
            pyIn "scrape" (pyLower t) || pyIn "crawl" (pyLower t)) with
        | w0 :: _ => tools5 ++ [w0]
        | [] => tools5
    else tools5
  -- Step: research intent (lines 1058-1068)
  let tools7 :=
    if (kw_research.any (fun k => pyIn k qLower)) &&
        !(tools6.any (fun t => pyIn "research" t)) then
      match availableTools.filter (fun t =>
          pyIn "research" (pyLower t) || pyIn "serper" (pyLower t)) with
      | r0 :: _ => tools6 ++ [r0]
      | [] => tools6
    else tools6
  -- Step: web-search fallback (lines 1070-1101)
  if tools7.isEmpty && enableWebSearch then
    match availableTools.filter (fun t => pyIn "search" (pyLower t)) with
    | [] => tools7
    | s0 :: srest =>
      let search_tools :=
        if kw_news.any (fun k => pyIn k qLower) then
          prioritizeSearchTools (s0 :: srest)
        else s0 :: srest
      match search_tools with
      | t :: _ => tools7 ++ [t]
      | [] => tools7
  else tools7

/-- Continuation after the explicit-server branch: the explicit
    function-category branch (lines 819-866, returning immediately on a
    pick) and then the classification pipeline. -/
def afterExplicit (availableTools : List String) (enableWebSearch : Bool)
    (qLower : String) (efr : Option String) (tools0 : List String) :
    SelectOutcome :=
  match efr, tools0 with
  | some category, [] =>
    match explicitFunctionPick category availableTools qLower with
    | t :: _ => ⟨[t], false⟩
    | [] => ⟨selectSteps availableTools enableWebSearch qLower [], false⟩
  | _, _ => ⟨selectSteps availableTools enableWebSearch qLower tools0, false⟩

/-- `select_mcp_tools(query)` from `mcp.py`, with the registry outputs and
    the web-search toggle as explicit inputs (in the source they are read
    from `get_available_mcp_tools()`, `get_available_mcp_servers()` and
    `st.session_state`, which are fixed during one call). -/
def select_mcp_tools_core (availableTools availableServers : List String)
    (enableWebSearch : Bool) (query : String) : SelectOutcome :=
  match scrapePhase availableTools query (pyLower query) with
  | some ts => ⟨ts, false⟩
  | none =>
    match crawlPhase availableTools query (pyLower query) with
    | some ts => ⟨ts, false⟩
    | none =>
      if availableTools.isEmpty then ⟨[], true⟩
      else
        match availableServers.find?
            (fun s => pyIn ("use " ++ pyLower s) (pyLower query)) with
        | some server =>
          match availableTools.filter (fun t => pyIn server t) with
          | r0 :: rrest =>
            if !(pyIn "search" (pyLower r0)) then
              ⟨explicitServerPick server (r0 :: rrest) (pyLower query), false⟩
            else
              afterExplicit availableTools enableWebSearch (pyLower query)
                (explicitFunctionCategory (pyLower query))
                (explicitServerPick server (r0 :: rrest) (pyLower query))
          | [] =>
            afterExplicit availableTools enableWebSearch (pyLower query)
              (explicitFunctionCategory (pyLower query)) []
        | none =>
          afterExplicit availableTools enableWebSearch (pyLower query)
            (explicitFunctionCategory (pyLower query)) []

/-- `select_mcp_tools` on a settings snapshot. -/
def select_mcp_tools (settings : McpSettings) (enableWebSearch : Bool)
    (query : String) : SelectOutcome :=
  select_mcp_tools_core (get_available_mcp_tools settings)
    (get_available_mcp_servers settings) enableWebSearch query

/-! ### `ai.py` — Prompt Assembler (tool-result serialization)

The `TOOL RESULTS` block of `generate_response` (lines 163-210) serializes
each stored tool result.  The stored `data` value is inspected dynamically
in the source (`isinstance` and key-presence checks); the embedding uses an
inductive type with one constructor per shape the code distinguishes, and
`Option` fields for key presence (`'k' in d` / `d.get(k, default)`).
-/

/-- One item of a list-shaped `data` value. -/
structure PromptSearchItem where
  title : Option String := none
  url : Option String := none
  description : Option String := none
  deriving Repr, DecidableEq

/-- One link of a scrape payload. -/
structure ScrapeLink where
  text : Option String := none
  url : Option String := none
  deriving Repr, DecidableEq

/-- One page of a crawl payload. -/
structure ScrapePage where
  title : Option String := none
  url : Option String := none
  content : Option String := none
  deriving Repr, DecidableEq

/-- A dict-shaped `data` value with a truthy `success` key (the
    `isinstance(..., dict) and 'success' in ... and ...['success']` guard);
    every other `data` shape, including dicts without a truthy `success`,
    renders as a flat label and is embedded as `PromptToolData.other` with
    its `repr` text. -/
structure ScrapePayload where
  url : Option String := none
  title : Option String := none
  content : Option String := none
  links : List ScrapeLink := []
  pages : List ScrapePage := []
  base_url : String := ""
  deriving Repr, DecidableEq

/-- The shapes of `result['data']` the serializer distinguishes:
    a list, a successful dict, or anything else (rendered via its `repr`
    as a flat `Result:` label). -/
inductive PromptToolData where
  | items : List PromptSearchItem → PromptToolData
  | payload : ScrapePayload → PromptToolData
  | other : String → PromptToolData
  deriving Repr, DecidableEq

/-- A stored tool result as the serializer sees it. -/
structure PromptToolResult where
  tool : String
  data : PromptToolData
  deriving Repr, DecidableEq

/-- The content-truncation step: `content[:limit] + "... [Content truncated]"`
    when `len(content) > limit` (`limit` is 2000 for a single-page scrape,
    1000 per crawled page). -/
def truncateContent (limit : Nat) (content : String) : String :=
  if limit < pyLen content then pyTake limit content ++ "... [Content truncated]"
  else content

/-- Serialization of a list-shaped result (lines 166-172): items that are
    dicts with both `title` and `url` render as an indexed line plus an
    optional description line; other items are skipped but keep their
    enumeration index. -/
def renderSearchItems (items : List PromptSearchItem) : String :=
  String.join ((items.enum).map (fun p =>
    match p.2.title, p.2.url with
    | some _, some _ =>
      "[" ++ Nat.repr (p.1 + 1) ++ "] " ++ (p.2.title.getD "No title") ++ " - " ++
      (p.2.url.getD "No URL") ++ "\n" ++
      (match p.2.description with
       | some d => "    " ++ d ++ "\n"
       | none => "")
    | _, _ => ""))

/-- The links block of a single-page scrape (lines 187-190): at most the
    first 5 links are rendered. -/
def renderLinks (links : List ScrapeLink) : String :=
  if links.isEmpty then ""
  else
    "\nLinks from the page:\n" ++
    String.join ((links.take 5).map (fun l =>
      "- " ++ (l.text.getD "Link") ++ " (" ++ (l.url.getD "") ++ ")\n"))

/-- A single-page scrape body (lines 175-190). -/
def renderScrapeSingle (title url content : String) (links : List ScrapeLink) :
    String :=
  "Scraped content from: " ++ title ++ " (" ++ url ++ ")\n\n" ++
  truncateContent 2000 content ++ "\n" ++ renderLinks links

/-- One crawled page (lines 198-206). -/
def renderPage (i : Nat) (p : ScrapePage) : String :=
  "Page " ++ Nat.repr (i + 1) ++ ": " ++ (p.title.getD "No title") ++ " (" ++
  (p.url.getD "No URL") ++ ")\n" ++
  truncateContent 1000 (p.content.getD "") ++ "\n\n"

/-- A multi-page crawl body (lines 192-206): only the first 3 pages are
    rendered. -/
def renderCrawl (base_url : String) (pages : List ScrapePage) : String :=
  "Crawled content from: " ++ base_url ++ "\n" ++
  "Pages crawled: " ++ Nat.repr pages.length ++ "\n\n" ++
  String.join (((pages.take 3).enum).map (fun p => renderPage p.1 p.2))

/-- The body for one stored result (lines 165-210). -/
def renderToolResult (r : PromptToolResult) : String :=
  "Tool: " ++ r.tool ++ "\n" ++
  (match r.data with
   | PromptToolData.items items => renderSearchItems items
   | PromptToolData.payload p =>
     match p.title, p.url, p.content with
     | some t, some u, some c => renderScrapeSingle t u c p.links
     | _, _, _ =>
       if !p.pages.isEmpty then renderCrawl p.base_url p.pages
       else ""
   | PromptToolData.other s => "Result: " ++ s ++ "\n") ++
  "\n"

/-- The whole `TOOL RESULTS` block (lines 163-210). -/
def renderToolResultsInfo (rs : List PromptToolResult) : String :=
  "\n\nTOOL RESULTS:\n" ++ String.join (rs.map renderToolResult)

/-! ### `ai.py` — Response Post-Processor

Lines 352-408 of `generate_response`: reference enforcement from the search
context, then the tool-mention line filter and the reasoner note.  The
inputs are the model reply (`content`), the search context string, whether
`search_metadata` carries a `result_count` key, the `use_mcp` flag and the
`mcp_tools_used` list.
-/

/-- Parse one line of the serialized search context into a
    `(title, url)` pair (lines 358-364). -/
def parseContextLine (line : String) : Option (String × String) :=
  if pyStartsWith "[" line && pyIn "] " line && pyIn " (Source: " line then
    match pySplitOn " (Source: " line with
    | [p0, p1] =>
      let url_part := pyRStrip ')' p1
      let title_part :=
        if pyIn "] " p0 then
          match pySplitFirst "] " p0 with
          | some q => q.2
          | none => p0
        else p0
      some (title_part, url_part)
    | _ => none
  else none

/-- `local_search_results`: the parsed `(title, url)` pairs of the context
    (lines 354-364; the enclosing `try` cannot fail in the embedding). -/
def parse_search_context (context : String) : List (String × String) :=
  (pySplitOn "\n" context).filterMap parseContextLine

/-- The generated references lines, one `[i+1] title - url` line per pair
    (the `for i, r in enumerate(...)` loop at lines 375-376). -/
def refLines : Nat → List (String × String) → String
  | _, [] => ""
  | i, r :: rs =>
    ("[" ++ Nat.repr (i + 1) ++ "] ") ++ (r.1 ++ " - " ++ r.2 ++ "\n") ++
    refLines (i + 1) rs

/-- The generated `## References` section (lines 374-376). -/
def build_references (rs : List (String × String)) : String :=
  "\n\n## References\n" ++ refLines 0 rs

/-- The clarifying note appended when a references heading exists but no
    citation marker does (line 383). -/
def citationNote : String :=
  "\n\n**Note: The information provided should include citations to the sources above. Please ask for clarification if sources aren\x27t properly cited.**"

/-- The case-variant check for an existing references heading
    (line 372). -/
def hasReferencesHeading (content : String) : Bool :=
  pyIn "References" content || pyIn "REFERENCES" content ||
  pyIn "references" (pyLower content)

/-- The citation-marker check (line 382). -/
def hasCitationMarkers (content : String) : Bool :=
  pyIn "[1]" content || pyIn "[2]" content || pyIn "[3]" content

/-- The tool-mention keywords of the line filter (line 395). -/
def toolKeywords : List String :=
  ["tool", "mcp", "search", "tavily", "brave", "perplexity", "serper", "firecrawl"]

/-- The usage-verb keywords of the line filter (line 398). -/
def usageWords : List String :=
  ["used", "using", "utilized", "provided by", "powered by", "via"]

/-- The note appended when an `mcp-reasoner` tool was used (line 408). -/
def reasonerNote : String :=
  "\n\n---\n*Note: Reasoning is provided in this separate section and should not be incorporated into the main response text.*"

/-- The response-side post-processing of `generate_response`
    (lines 352-408). -/
def post_process_response (content context : String) (hasResultCount : Bool)
    (useMcp : Bool) (toolsUsed : List String) : String :=
  let step1 :=
    if !(context == "") && hasResultCount then
      let local_search_results := parse_search_context context
      if local_search_results.isEmpty then content
      else if !hasReferencesHeading content then
        content ++ build_references local_search_results
      else if !hasCitationMarkers content then
        content ++ citationNote
      else content
    else content
  if useMcp && !toolsUsed.isEmpty then
    let content_lines := pySplitOn "\n" step1
    let cleaned_lines := content_lines.filter (fun line =>
      !((toolKeywords.any (fun k => pyIn k (pyLower line))) &&
        (usageWords.any (fun w => pyIn w (pyLower line)))))
    let joined := pyJoin "\n" cleaned_lines
    if pyIn "mcp-reasoner" (pyJoin " " toolsUsed) then joined ++ reasonerNote
    else joined
  else step1

/-! ### Concrete values used by witnesses -/

/-- A sample search record for executor witnesses. -/
def demoSearchRecord : SearchRecord :=
  ⟨"Example title", "https://example.org", "snippet", "", "", none⟩

/-- A network oracle that fails on every attempt. -/
def alwaysFailNet : BraveParams → Nat → Except String BraveResponse :=
  fun _ _ => Except.error "timeout"

/-- A 5000-character content field. -/
def bigContent : String := ⟨List.replicate 5000 'a'⟩

/-! ### Substring toolkit lemmas -/

lemma lcContains_nil (l : List Char) : lcContains [] l = true := by
  cases l <;> simp [lcContains, List.isPrefixOf]

lemma isPrefixOf_append_of_isPrefixOf {pat l : List Char} (y : List Char)
    (h : pat.isPrefixOf l = true) : pat.isPrefixOf (l ++ y) = true :=
  List.isPrefixOf_iff_prefix.mpr
    ((List.isPrefixOf_iff_prefix.mp h).trans (List.prefix_append l y))

lemma lcContains_of_isPrefixOf {pat l : List Char} (h : pat.isPrefixOf l = true) :
    lcContains pat l = true := by
  cases l with
  | nil =>
    cases pat with
    | nil => simp [lcContains]
    | cons c t => simp [List.isPrefixOf] at h
  | cons c t => simp [lcContains, h]

lemma lcContains_append_right {pat y : List Char} (x : List Char)
    (h : lcContains pat y = true) : lcContains pat (x ++ y) = true := by
  induction x with
  | nil => simpa using h
  | cons c t ih => simp [lcContains, ih]

lemma lcContains_append_left {pat x : List Char} (y : List Char)
    (h : lcContains pat x = true) : lcContains pat (x ++ y) = true := by
  induction x with
  | nil =>
    have hp : pat = [] := by
      cases pat with
      | nil => rfl
      | cons c t => simp [lcContains] at h
    subst hp
    exact lcContains_nil _
  | cons c t ih =>
    simp only [lcContains, Bool.or_eq_true] at h
    rcases h with h | h
    · simpa [lcContains] using Or.inl (isPrefixOf_append_of_isPrefixOf y h)
    · simpa [lcContains] using Or.inr (ih h)

lemma pyIn_append_right {p y : String} (x : String) (h : pyIn p y = true) :
    pyIn p (x ++ y) = true := by
  unfold pyIn at *
  rw [String.data_append]
  exact lcContains_append_right _ h

lemma pyIn_append_left {p x : String} (y : String) (h : pyIn p x = true) :
    pyIn p (x ++ y) = true := by
  unfold pyIn at *
  rw [String.data_append]
  exact lcContains_append_left _ h

lemma pyLower_append (x y : String) :
    pyLower (x ++ y) = pyLower x ++ pyLower y := by
  unfold pyLower
  rw [String.data_append, List.map_append]
  rfl

/-! ### C5 -/

/-- C5: with an empty available-tools sequence the selector returns the
    empty selection and signals the no-tools-available error state, for
    every query (the direct scrape/crawl handlers find no tool and the
    guard at line 710 of `mcp.py` returns before any classification step
    runs); the query may freely mention scrape, crawl, URLs or an explicit
    server request. -/
theorem c5_empty_registry_short_circuits (availableServers : List String)
    (enableWebSearch : Bool) (query : String) :
    select_mcp_tools_core [] availableServers enableWebSearch query =
      ⟨[], true⟩ := by
  unfold select_mcp_tools_core scrapePhase crawlPhase
  simp

/-! ### C3 -/

/-- C3: the claimed envelope invariant (error non-null iff success false;
    for search-capable tools success iff non-empty results) fails in the
    code: the firecrawl search branch (mcp.py lines 440-441) stores the
    non-empty result list but never sets success, so the returned envelope
    has `success = false`, `error = none` and populated data. -/
theorem c3_firecrawl_search_envelope_bug :
    execute_mcp_tool (fun _ _ _ => [demoSearchRecord]) "search_firecrawl-mcp"
        "quantum computing" =
      ⟨"search_firecrawl-mcp", false, some [demoSearchRecord], none⟩ ∧
    (execute_mcp_tool (fun _ _ _ => [demoSearchRecord]) "search_firecrawl-mcp"
        "quantum computing").data ≠ none := by
  constructor
  · decide
  · decide

/-! ### C10 -/

/-- C10: the executor splits the tool identifier on the first underscore
    only, so the default scrape tool parses as function `firecrawl`,
    server `scrape_firecrawl-mcp`; since `crawl` is a substring of
    `firecrawl` the crawl branch handles it, and for every query containing
    a URL the envelope fails with the web-crawling (not web-scraping)
    message naming that URL. -/
theorem c10_scrape_tool_routed_to_crawl
    (bs : String → Nat → Option String → List SearchRecord)
    (query url : String) (h : url_search query = some url) :
    pySplitFirst "_" "firecrawl_scrape_firecrawl-mcp" =
      some ("firecrawl", "scrape_firecrawl-mcp") ∧
    execute_mcp_tool bs "firecrawl_scrape_firecrawl-mcp" query =
      ⟨"firecrawl_scrape_firecrawl-mcp", false, none,
        some ("Web crawling for " ++ ensureProtocol url ++
          " is not implemented. Please check your MCP configuration.")⟩ := by
  refine ⟨by decide, ?_⟩
  have hx : extractUrlForFirecrawl crawlDomainKeywords query =
      some (ensureProtocol url) := by
    unfold extractUrlForFirecrawl
    rw [h]
  unfold execute_mcp_tool
  simp only [(by decide :
      pySplitFirst "_" "firecrawl_scrape_firecrawl-mcp" =
        some ("firecrawl", "scrape_firecrawl-mcp")),
    (by decide : (("scrape_firecrawl-mcp" : String) == "brave-search") = false),
    (by decide : pyIn "firecrawl" "scrape_firecrawl-mcp" = true),
    (by decide : pyIn "scrape" (pyLower "firecrawl") = false),
    (by decide : pyIn "crawl" (pyLower "firecrawl") = true),
    Bool.false_and, Bool.false_eq_true, if_false, if_true, hx]

/-- Witness for C10 at a concrete query. -/
theorem c10_witness :
    url_search "scrape https://example.com for headlines" =
      some "https://example.com" ∧
    execute_mcp_tool (fun _ _ _ => []) "firecrawl_scrape_firecrawl-mcp"
        "scrape https://example.com for headlines" =
      ⟨"firecrawl_scrape_firecrawl-mcp", false, none,
        some ("Web crawling for " ++ ensureProtocol "https://example.com" ++
          " is not implemented. Please check your MCP configuration.")⟩ :=
  ⟨by decide,
    (c10_scrape_tool_routed_to_crawl (fun _ _ _ => [])
      "scrape https://example.com for headlines" "https://example.com"
      (by decide)).2⟩

/-! ### C9 -/

/-- C9: the executor is total (by construction of the embedding, matching
    the source's catch-all handler) and encodes failures in the envelope:
    a malformed identifier (no underscore, so `split('_', 1)` cannot
    produce a function and a server part) yields the invalid-format error
    envelope immediately, and an identifier whose server part names
    `mcp-reasoner` (and none of the other handled providers) always yields
    the deterministic not-implemented error envelope. -/
theorem c9_malformed_and_reasoner_envelopes
    (bs : String → Nat → Option String → List SearchRecord)
    (tool query : String) :
    (pySplitFirst "_" tool = none →
      execute_mcp_tool bs tool query =
        ⟨tool, false, none, some ("Invalid tool name format: " ++ tool)⟩) ∧
    (∀ f s, pySplitFirst "_" tool = some (f, s) →
      pyIn "mcp-reasoner" s = true →
      pyIn "firecrawl" s = false →
      (pyIn "tavily" s && pyIn "search" (pyLower f)) = false →
      pyIn "perplexity" s = false →
      pyIn "serper" s = false →
      execute_mcp_tool bs tool query =
        ⟨tool, false, none,
          some "MCP reasoner integration is not implemented. Please check your MCP configuration."⟩) := by
  constructor
  · intro h
    unfold execute_mcp_tool
    rw [h]
  · intro f s hsplit hreason hfire htav hperp hserp
    have hb : (s == "brave-search") = false := by
      cases hsb : s == "brave-search"
      · rfl
      · exfalso
        have hs : s = "brave-search" := eq_of_beq hsb
        rw [hs] at hreason
        exact absurd hreason (by decide)
    unfold execute_mcp_tool
    rw [hsplit]
    simp only [hb, Bool.false_and, Bool.false_eq_true, if_false, hfire, htav,
      hperp, hserp, hreason, if_true]

/-- Witness for C9: a malformed identifier and the default equation-solving
    reasoner tool. -/
theorem c9_witness :
    execute_mcp_tool (fun _ _ _ => []) "nounderscore" "q" =
      ⟨"nounderscore", false, none,
        some ("Invalid tool name format: " ++ "nounderscore")⟩ ∧
    execute_mcp_tool (fun _ _ _ => []) "solve_equations_mcp-reasoner"
        "use mcp-reasoner to solve the equation" =
      ⟨"solve_equations_mcp-reasoner", false, none,
        some "MCP reasoner integration is not implemented. Please check your MCP configuration."⟩ :=
  ⟨(c9_malformed_and_reasoner_envelopes (fun _ _ _ => []) "nounderscore" "q").1
      (by decide),
   (c9_malformed_and_reasoner_envelopes (fun _ _ _ => [])
      "solve_equations_mcp-reasoner" "use mcp-reasoner to solve the equation").2
      "solve" "equations_mcp-reasoner" (by decide) (by decide) (by decide)
      (by decide) (by decide) (by decide)⟩

/-! ### C6 -/

lemma braveLoop_attempts_le (net : BraveParams → Nat → Except String BraveResponse)
    (params : BraveParams) (mr : Nat) :
    ∀ fuel attempt delay, (braveLoop net params mr fuel attempt delay).attempts ≤ fuel := by
  intro fuel
  induction fuel with
  | zero => intro attempt delay; simp [braveLoop]
  | succ n ih =>
    intro attempt delay
    simp only [braveLoop]
    cases net params attempt with
    | ok resp => simp
    | error e =>
      by_cases h : attempt < mr - 1
      · simp only [h, if_true]
        have := ih (attempt + 1) (delay * 2)
        omega
      · simp [h]

/-- C6: `brave_search` never escapes the component (it is a total
    function of its oracle); with the credential missing it returns the
    empty list at once with zero attempts, surfacing the configuration
    warning; it makes at most `max_retries` request attempts; and with
    `max_retries = 3` against a network that fails every attempt it makes
    exactly 3 attempts, sleeping the doubling delays 1 and 2 seconds
    between them, returns the empty list, and surfaces the final error
    as a warning. -/
theorem c6_brave_search_failures :
    (∀ net query count country freshness mr,
      brave_search none net query count country freshness mr =
        ⟨[], 0, [],
          some "Brave Search API key not set. Please set BRAVE_API_KEY in your environment."⟩) ∧
    (∀ (key : String) net query count country freshness (e : Nat → String),
      (∀ p n, net p n = Except.error (e n)) →
      brave_search (some key) net query count country freshness 3 =
        ⟨[], 3, [1, 2], some ("Error fetching search results: " ++ e 2)⟩) ∧
    (∀ key net query count country freshness mr,
      (brave_search key net query count country freshness mr).attempts ≤ mr) := by
  refine ⟨fun _ _ _ _ _ _ => rfl, ?_, ?_⟩
  · intro key net query count country freshness e hnet
    unfold brave_search
    simp only [braveLoop, hnet]
    norm_num
  · intro key net query count country freshness mr
    cases key with
    | none => simp [brave_search]
    | some k => exact braveLoop_attempts_le _ _ _ mr 0 1

/-- Witness for C6: the missing-credential case and the always-failing
    network at `max_retries = 3`. -/
theorem c6_witness :
    brave_search none alwaysFailNet "q" 10 "us" none 3 =
      ⟨[], 0, [],
        some "Brave Search API key not set. Please set BRAVE_API_KEY in your environment."⟩ ∧
    brave_search (some "key") alwaysFailNet "q" 10 "us" none 3 =
      ⟨[], 3, [1, 2], some ("Error fetching search results: " ++ "timeout")⟩ :=
  ⟨c6_brave_search_failures.1 alwaysFailNet "q" 10 "us" none 3,
   c6_brave_search_failures.2.1 "key" alwaysFailNet "q" 10 "us" none
     (fun _ => "timeout") (fun _ _ => rfl)⟩

/-! ### C7 -/

/-- C7: in the prompt-assembly serialization, a scrape-success payload
    whose content exceeds 2000 characters renders as exactly its first
    2000 characters followed by the literal truncation marker; each
    rendered crawl page is capped at 1000 characters plus the marker
    (only the first 3 pages are rendered at all); and at most 5 links are
    rendered. -/
theorem c7_serializer_truncation (title url content : String)
    (links : List ScrapeLink) (h : 2000 < pyLen content) :
    renderScrapeSingle title url content links =
      "Scraped content from: " ++ title ++ " (" ++ url ++ ")\n\n" ++
      (pyTake 2000 content ++ "... [Content truncated]") ++ "\n" ++
      renderLinks links ∧
    pyLen (pyTake 2000 content) = 2000 ∧
    renderLinks links = renderLinks (links.take 5) ∧
    (links.take 5).length ≤ 5 ∧
    (∀ base_url (pages : List ScrapePage),
      renderCrawl base_url pages =
        "Crawled content from: " ++ base_url ++ "\n" ++
        "Pages crawled: " ++ Nat.repr pages.length ++ "\n\n" ++
        String.join (((pages.take 3).enum).map (fun p => renderPage p.1 p.2))) ∧
    (∀ i (p : ScrapePage), 1000 < pyLen (p.content.getD "") →
      renderPage i p =
        "Page " ++ Nat.repr (i + 1) ++ ": " ++ (p.title.getD "No title") ++
        " (" ++ (p.url.getD "No URL") ++ ")\n" ++
        (pyTake 1000 (p.content.getD "") ++ "... [Content truncated]") ++
        "\n\n" ∧
      pyLen (pyTake 1000 (p.content.getD "")) = 1000) := by
  have hlen : pyLen (pyTake 2000 content) = 2000 := by
    simp only [pyLen, pyTake, List.length_take] at *
    omega
  refine ⟨?_, hlen, ?_, ?_, fun _ _ => rfl, ?_⟩
  · unfold renderScrapeSingle truncateContent
    rw [if_pos h]
  · cases links with
    | nil => rfl
    | cons l t => simp [renderLinks, List.take_take]
  · have := List.length_take 5 links
    omega
  · intro i p hp
    constructor
    · unfold renderPage truncateContent
      rw [if_pos hp]
    · simp only [pyLen, pyTake, List.length_take] at *
      omega

/-- Witness for C7: a content field of exactly 5000 characters. -/
theorem c7_witness :
    2000 < pyLen bigContent ∧
    renderScrapeSingle "Example" "https://example.org" bigContent [] =
      "Scraped content from: " ++ "Example" ++ " (" ++ "https://example.org" ++
      ")\n\n" ++ (pyTake 2000 bigContent ++ "... [Content truncated]") ++
      "\n" ++ renderLinks [] ∧
    pyLen (pyTake 2000 bigContent) = 2000 := by
  have hbig : 2000 < pyLen bigContent := by
    have h5 : pyLen bigContent = 5000 := by
      show (List.replicate 5000 'a').length = 5000
      exact List.length_replicate 5000 'a'
    omega
  exact ⟨hbig,
    (c7_serializer_truncation "Example" "https://example.org" bigContent [] hbig).1,
    (c7_serializer_truncation "Example" "https://example.org" bigContent [] hbig).2.1⟩

/-! ### C8 -/

lemma mem_dedupKeepFirstAux : ∀ (fuel : Nat) (l : List String) (a : String),
    a ∈ dedupKeepFirstAux fuel l ↔ a ∈ l := by
  intro fuel
  induction fuel with
  | zero => intro l a; cases l <;> simp [dedupKeepFirstAux]
  | succ n ih =>
    intro l a
    cases l with
    | nil => simp [dedupKeepFirstAux]
    | cons x t =>
      simp only [dedupKeepFirstAux, List.mem_cons, ih, List.mem_filter]
      constructor
      · rintro (h | ⟨h, _⟩)
        · exact Or.inl h
        · exact Or.inr h
      · rintro (h | h)
        · exact Or.inl h
        · by_cases hax : a = x
          · exact Or.inl hax
          · exact Or.inr ⟨h, by simp [hax]⟩

lemma mem_dedupKeepFirst (l : List String) (a : String) :
    a ∈ dedupKeepFirst l ↔ a ∈ l :=
  mem_dedupKeepFirstAux _ _ _

lemma collectTools_eq_flatMap (svs : List (String × McpServerConfig)) :
    collectTools svs = svs.flatMap (fun p =>
      if p.2.disabled then []
      else (allowedFunctions p.2).map (fun f => f ++ "_" ++ p.1)) := by
  have key : ∀ (l : List (String × McpServerConfig)) (a : List String),
      l.foldl
        (fun acc p =>
          if p.2.disabled then acc
          else acc ++ (allowedFunctions p.2).map (fun f => f ++ "_" ++ p.1)) a =
      a ++ l.flatMap (fun p =>
        if p.2.disabled then []
        else (allowedFunctions p.2).map (fun f => f ++ "_" ++ p.1)) := by
    intro l
    induction l with
    | nil => intro a; simp
    | cons x t ih =>
      intro a
      by_cases hx : x.2.disabled
      · simp [hx, ih, List.flatMap_cons]
      · simp [hx, ih, List.flatMap_cons, List.append_assoc]
  simpa [collectTools] using key svs []

/-- C8: with an empty union over all non-disabled servers the registry
    returns the fixed fallback list (with scrape, crawl, documentation,
    deep-research and search entries), omitting `search_brave-search`
    exactly when `brave-search` is explicitly disabled; with a non-empty
    union, every allowed function of an enabled server yields its
    identifier, and every emitted identifier comes from an enabled server's
    allowed-function set (so disabled servers contribute nothing). -/
theorem c8_registry_tools :
    (∀ settings : McpSettings, unionTools settings = [] →
      get_available_mcp_tools settings =
        (if braveExplicitlyDisabled settings then [] else ["search_brave-search"]) ++
        firecrawlDefaultTools ++
        ["tavily-search_tavily-mcp", "get_documentation_perplexity-mcp",
         "deep-research_Serper-search-mcp"] ∧
      "firecrawl_scrape_firecrawl-mcp" ∈ get_available_mcp_tools settings ∧
      "firecrawl_crawl_firecrawl-mcp" ∈ get_available_mcp_tools settings ∧
      "get_documentation_perplexity-mcp" ∈ get_available_mcp_tools settings ∧
      "firecrawl_deep_research_firecrawl-mcp" ∈ get_available_mcp_tools settings ∧
      "tavily-search_tavily-mcp" ∈ get_available_mcp_tools settings ∧
      ("search_brave-search" ∈ get_available_mcp_tools settings ↔
        braveExplicitlyDisabled settings = false)) ∧
    (∀ svs server cfg f, (server, cfg) ∈ svs → cfg.disabled = false →
      f ∈ cfg.autoApprove ++ cfg.alwaysAllow →
      (f ++ "_" ++ server) ∈ get_available_mcp_tools ⟨some svs⟩) ∧
    (∀ svs t, unionTools ⟨some svs⟩ ≠ [] →
      t ∈ get_available_mcp_tools ⟨some svs⟩ →
      ∃ server cfg, (server, cfg) ∈ svs ∧ cfg.disabled = false ∧
        ∃ f, f ∈ cfg.autoApprove ++ cfg.alwaysAllow ∧ t = f ++ "_" ++ server) := by
  have hmem : ∀ svs t, t ∈ collectTools svs ↔
      ∃ server cfg, (server, cfg) ∈ svs ∧ cfg.disabled = false ∧
        ∃ f, f ∈ cfg.autoApprove ++ cfg.alwaysAllow ∧ t = f ++ "_" ++ server := by
    intro svs t
    rw [collectTools_eq_flatMap, List.mem_flatMap]
    constructor
    · rintro ⟨⟨server, cfg⟩, hp, ht⟩
      by_cases hd : cfg.disabled
      · simp [hd] at ht
      · simp only [hd, if_false] at ht
        rcases List.mem_map.mp ht with ⟨f, hf, rfl⟩
        exact ⟨server, cfg, hp, by simpa using hd,
          f, (mem_dedupKeepFirst _ f).mp hf, rfl⟩
    · rintro ⟨server, cfg, hp, hd, f, hf, rfl⟩
      refine ⟨(server, cfg), hp, ?_⟩
      simp only [hd, Bool.false_eq_true, if_false]
      exact List.mem_map.mpr ⟨f, (mem_dedupKeepFirst _ f).mpr hf, rfl⟩
  refine ⟨?_, ?_, ?_⟩
  · intro settings h
    have hfb : get_available_mcp_tools settings =
        (if braveExplicitlyDisabled settings then [] else ["search_brave-search"]) ++
        firecrawlDefaultTools ++
        ["tavily-search_tavily-mcp", "get_documentation_perplexity-mcp",
         "deep-research_Serper-search-mcp"] := by
      unfold get_available_mcp_tools
      rw [h]
      rfl
    rw [hfb]
    by_cases hb : braveExplicitlyDisabled settings
    · rw [if_pos hb]
      refine ⟨rfl, by decide, by decide, by decide, by decide, by decide, ?_⟩
      simp [hb]
      decide
    · rw [if_neg hb]
      refine ⟨rfl, by decide, by decide, by decide, by decide, by decide, ?_⟩
      simp only [Bool.not_eq_true] at hb
      simp [hb]
  · intro svs server cfg f hp hd hf
    have ht : (f ++ "_" ++ server) ∈ collectTools svs :=
      (hmem svs _).mpr ⟨server, cfg, hp, hd, f, hf, rfl⟩
    have hne : (collectTools svs).isEmpty = false := by
      cases hcol : collectTools svs with
      | nil => rw [hcol] at ht; exact absurd ht (List.not_mem_nil _)
      | cons a l => rfl
    unfold get_available_mcp_tools
    rw [show unionTools ⟨some svs⟩ = collectTools svs from rfl, hne]
    simp only [Bool.false_eq_true, if_false]
    exact ht
  · intro svs t hne ht
    have hu : unionTools ⟨some svs⟩ = collectTools svs := rfl
    have hie : (collectTools svs).isEmpty = false := by
      rw [hu] at hne
      cases hcol : collectTools svs with
      | nil => exact absurd hcol hne
      | cons a l => rfl
    unfold get_available_mcp_tools at ht
    rw [show unionTools ⟨some svs⟩ = collectTools svs from rfl, hie] at ht
    simp only [Bool.false_eq_true, if_false] at ht
    exact (hmem svs t).mp ht

/-- Witness for C8: a configuration with only a disabled `brave-search`
    server (empty union, fallback without the brave tool) and one with an
    enabled `perplexity-mcp` server. -/
theorem c8_witness :
    (unionTools ⟨some [("brave-search", ⟨[], [], true⟩)]⟩ = [] ∧
      ("search_brave-search" ∈
          get_available_mcp_tools ⟨some [("brave-search", ⟨[], [], true⟩)]⟩ ↔
        braveExplicitlyDisabled ⟨some [("brave-search", ⟨[], [], true⟩)]⟩ = false)) ∧
    (("perplexity-mcp", (⟨["get_documentation"], [], false⟩ : McpServerConfig)) ∈
        [("perplexity-mcp", (⟨["get_documentation"], [], false⟩ : McpServerConfig))] ∧
      ("get_documentation" ++ "_" ++ "perplexity-mcp") ∈
        get_available_mcp_tools
          ⟨some [("perplexity-mcp", ⟨["get_documentation"], [], false⟩)]⟩) :=
  ⟨⟨by decide,
    (c8_registry_tools.1 ⟨some [("brave-search", ⟨[], [], true⟩)]⟩ (by decide)).2.2.2.2.2.2⟩,
   ⟨by decide,
    c8_registry_tools.2.1 [("perplexity-mcp", ⟨["get_documentation"], [], false⟩)]
      "perplexity-mcp" ⟨["get_documentation"], [], false⟩ "get_documentation"
      (by decide) (by decide) (by decide)⟩⟩

/-! ### C2 -/

/-- C2, as the code behaves (claim corrected): with search context in play
    and at least one parsed source, a reply without any case variant of
    "references" gets the generated `## References` section appended; a
    reply that does contain such a variant but none of the markers
    `[1]`, `[2]`, `[3]` gets the clarifying note appended instead; a reply
    with both gets nothing appended — so never both. -/
theorem c2_references_or_note (content context : String)
    (r : String × String) (rs : List (String × String))
    (hctx : (context == "") = false)
    (hparse : parse_search_context context = r :: rs) :
    (hasReferencesHeading content = false →
      post_process_response content context true false [] =
        content ++ build_references (r :: rs)) ∧
    (hasReferencesHeading content = true → hasCitationMarkers content = false →
      post_process_response content context true false [] =
        content ++ citationNote) ∧
    (hasReferencesHeading content = true → hasCitationMarkers content = true →
      post_process_response content context true false [] = content) := by
  refine ⟨fun h => ?_, fun h1 h2 => ?_, fun h1 h2 => ?_⟩
  · simp [post_process_response, hctx, hparse, h]
  · simp [post_process_response, hctx, hparse, h1, h2]
  · simp [post_process_response, hctx, hparse, h1, h2]

/-- Counterexample to C2 as stated: a reply that contains the citation
    marker `[1]` but no references heading receives the generated
    `## References` section, not the clarifying note the claim
    prescribes. -/
theorem c2_counterexample :
    hasCitationMarkers "The capital of France is Paris [1]" = true ∧
    hasReferencesHeading "The capital of France is Paris [1]" = false ∧
    post_process_response "The capital of France is Paris [1]"
        "[1] France: facts (Source: https://x)" true false [] =
      "The capital of France is Paris [1]" ++
        build_references [("France: facts", "https://x")] ∧
    pyIn citationNote
      (post_process_response "The capital of France is Paris [1]"
        "[1] France: facts (Source: https://x)" true false []) = false := by
  exact ⟨by decide, by decide, by decide, by decide⟩

/-- Witness for C2 at a concrete reply lacking the word "references". -/
theorem c2_witness :
    ((("[1] France: facts (Source: https://x)" : String) == "") = false) ∧
    parse_search_context "[1] France: facts (Source: https://x)" =
      [("France: facts", "https://x")] ∧
    hasReferencesHeading "Paris is the capital" = false ∧
    post_process_response "Paris is the capital"
        "[1] France: facts (Source: https://x)" true false [] =
      "Paris is the capital" ++
        build_references [("France: facts", "https://x")] :=
  ⟨by decide, by decide, by decide,
    (c2_references_or_note "Paris is the capital"
      "[1] France: facts (Source: https://x)" ("France: facts", "https://x") []
      (by decide) (by decide)).1 (by decide)⟩

/-! ### C4 -/

/-- C4, corrected: with no MCP tools in play, the post-processing is
    idempotent whenever the first pass did not take the clarifying-note
    branch; in particular when a `## References` section is appended the
    second pass sees the heading (case-insensitively) and the `[1]` marker
    of the generated section, so it never appends a duplicate section.
    (The excluded note branch genuinely re-fires: see the
    counterexample.) -/
theorem c4_postprocess_idempotent_off_note_branch (content context : String)
    (h : ¬(parse_search_context context ≠ [] ∧ (context == "") = false ∧
          hasReferencesHeading content = true ∧
          hasCitationMarkers content = false)) :
    post_process_response (post_process_response content context true false [])
        context true false [] =
      post_process_response content context true false [] := by
  cases hc : context == "" with
  | true => simp [post_process_response, hc]
  | false =>
    cases hp : parse_search_context context with
    | nil => simp [post_process_response, hc, hp]
    | cons r rs =>
      cases hh : hasReferencesHeading content with
      | false =>
        have hstep : post_process_response content context true false [] =
            content ++ build_references (r :: rs) := by
          simp [post_process_response, hc, hp, hh]
        rw [hstep]
        have hrefs_lower :
            pyIn "references" (pyLower (build_references (r :: rs))) = true := by
          unfold build_references
          rw [pyLower_append]
          apply pyIn_append_left
          decide
        have hhead2 :
            hasReferencesHeading (content ++ build_references (r :: rs)) = true := by
          unfold hasReferencesHeading
          rw [pyLower_append]
          have hx := pyIn_append_right (pyLower content) hrefs_lower
          simp [hx]
        have hmark2 :
            hasCitationMarkers (content ++ build_references (r :: rs)) = true := by
          have hm : pyIn "[1]" (build_references (r :: rs)) = true := by
            unfold build_references refLines
            apply pyIn_append_right
            apply pyIn_append_left
            apply pyIn_append_left
            decide
          unfold hasCitationMarkers
          have hx := pyIn_append_right content hm
          simp [hx]
        simp [post_process_response, hc, hp, hhead2, hmark2]
      | true =>
        cases hm : hasCitationMarkers content with
        | false => exact absurd ⟨by simp [hp], hc, hh, hm⟩ h
        | true =>
          have hstep : post_process_response content context true false [] =
              content := by
            simp [post_process_response, hc, hp, hh, hm]
          rw [hstep]
          exact hstep

set_option maxRecDepth 8192 in
/-- Counterexample to C4 as stated: a reply already containing the word
    "references" but no citation markers gets the clarifying note appended,
    and a second application appends the note again, so the second output
    differs from the first. -/
theorem c4_counterexample :
    post_process_response
        (post_process_response "See the references section"
          "[1] France: facts (Source: https://x)" true false [])
        "[1] France: facts (Source: https://x)" true false [] ≠
      post_process_response "See the references section"
        "[1] France: facts (Source: https://x)" true false [] := by
  decide

/-- Witness for C4 on a reply where the References section is inserted. -/
theorem c4_witness :
    post_process_response
        (post_process_response "Paris is the capital"
          "[1] France: facts (Source: https://x)" true false [])
        "[1] France: facts (Source: https://x)" true false [] =
      post_process_response "Paris is the capital"
        "[1] France: facts (Source: https://x)" true false [] :=
  c4_postprocess_idempotent_off_note_branch "Paris is the capital"
    "[1] France: facts (Source: https://x)" (by decide)

/-! ### C1 -/

lemma headOrNil_eq {l : List String} {t : String} (h : headOrNil l = [t]) :
    t ∈ l := by
  cases l with
  | nil => simp [headOrNil] at h
  | cons a s =>
    simp only [headOrNil, List.cons.injEq] at h
    exact h.1 ▸ List.mem_cons_self _ _

lemma explicitServerPick_mem {server : String} {req : List String}
    {q t : String} (h : explicitServerPick server req q = [t]) : t ∈ req := by
  unfold explicitServerPick at h
  split_ifs at h <;>
    first
      | exact headOrNil_eq h
      | exact List.mem_of_mem_filter (headOrNil_eq h)

/-- C1, corrected: the explicit "use {serverName}" override governs the
    selection only when the direct scrape/crawl handlers (which run first)
    do not fire; in that case, when some available tool mentions the first
    requested available server and the server-specific sub-selection picks
    a tool, the selector returns exactly that tool (a tool mentioning the
    requested server) — returning immediately because the first
    server-matching tool is not search-like. -/
theorem c1_explicit_server_override (availableTools availableServers : List String)
    (enableWebSearch : Bool) (query server t r0 : String) (rrest : List String)
    (h1 : scrapePhase availableTools query (pyLower query) = none)
    (h2 : crawlPhase availableTools query (pyLower query) = none)
    (h3 : availableServers.find?
      (fun s => pyIn ("use " ++ pyLower s) (pyLower query)) = some server)
    (h4 : availableTools.filter (fun x => pyIn server x) = r0 :: rrest)
    (h5 : explicitServerPick server (r0 :: rrest) (pyLower query) = [t])
    (h6 : pyIn "search" (pyLower r0) = false) :
    select_mcp_tools_core availableTools availableServers enableWebSearch query =
      ⟨[t], false⟩ ∧ pyIn server t = true := by
  constructor
  · have hne : availableTools.isEmpty = false := by
      cases hav : availableTools with
      | nil => rw [hav] at h4; simp at h4
      | cons a l => rfl
    unfold select_mcp_tools_core
    rw [h1, h2]
    rw [hne]
    simp only [Bool.false_eq_true, if_false, h3, h4, h5, h6, Bool.not_false,
      if_true]
  · have ht : t ∈ availableTools.filter (fun x => pyIn server x) :=
      h4 ▸ explicitServerPick_mem h5
    exact (List.mem_filter.mp ht).2

/-- Counterexample to C1 as stated: a query that both requests
    `use brave-search` and triggers the direct scrape handler is served by
    the scrape handler first, selecting a tool of a different server. -/
theorem c1_counterexample :
    pyIn "use brave-search"
      (pyLower "use brave-search and scrape the content from that website") =
      true ∧
    "brave-search" ∈ get_available_mcp_servers
      ⟨some [("brave-search", ⟨["search"], [], false⟩),
             ("firecrawl-mcp", ⟨["firecrawl_scrape"], [], false⟩)]⟩ ∧
    select_mcp_tools
        ⟨some [("brave-search", ⟨["search"], [], false⟩),
               ("firecrawl-mcp", ⟨["firecrawl_scrape"], [], false⟩)]⟩ true
        "use brave-search and scrape the content from that website" =
      ⟨["firecrawl_scrape_firecrawl-mcp"], false⟩ ∧
    pyIn "brave-search" "firecrawl_scrape_firecrawl-mcp" = false := by
  exact ⟨by decide, by decide, by decide, by decide⟩

/-- Witness for C1 with a query that does not trigger the scrape/crawl
    handlers. -/
theorem c1_witness :
    select_mcp_tools_core
        ["get_documentation_perplexity-mcp", "chat_perplexity_perplexity-mcp"]
        ["perplexity-mcp"] true "use perplexity-mcp for docs" =
      ⟨["get_documentation_perplexity-mcp"], false⟩ ∧
    pyIn "perplexity-mcp" "get_documentation_perplexity-mcp" = true :=
  c1_explicit_server_override
    ["get_documentation_perplexity-mcp", "chat_perplexity_perplexity-mcp"]
    ["perplexity-mcp"] true "use perplexity-mcp for docs" "perplexity-mcp"
    "get_documentation_perplexity-mcp" "get_documentation_perplexity-mcp"
    ["chat_perplexity_perplexity-mcp"]
    (by decide) (by decide) (by decide) (by decide) (by decide) (by decide)
